import Mathlib

/-!
Shallow embedding of the native bridge layer of SpeechTranslator
(`whisper_bridge.cpp`, `llama_bridge.cpp`).

The underlying inference engines (whisper.cpp / llama.cpp) are modelled as
oracles: an environment structure supplies the outcome of each engine call
(model load success, context creation success, tokenizer results, decode
status, sampled tokens, detokenized pieces).  Each concrete run of the C++
code corresponds to one choice of environment, so properties proved for all
environments hold of the code.

Native handles (whisper_context, llama_model, llama_context) are modelled as
ids drawn from a fresh-id counter in the state.  Every allocation appends the
id to an `allocated` list and every `*_free` appends it to a `freed` list, so
"the prior handle is released" and "a handle leaks" are directly expressible:
a handle is live when it was allocated and never freed.
-/

namespace SpeechTranslator

/-- Oracle for the whisper.cpp engine calls made by `whisper_bridge.cpp`.
`loadOk path` is whether `whisper_init_from_file_with_params` returns a
non-null context for `path`; `full threads pcm lang` is `none` when
`whisper_full` returns nonzero, and otherwise the list of segment texts
(`whisper_full_get_segment_text` may return null, hence `Option String`). -/
structure WhisperEnv where
  loadOk : String → Bool
  full : Int → List Int → String → Option (List (Option String))

/-- Globals of `whisper_bridge.cpp` (`g_ctx`, `g_threads`) together with the
allocation bookkeeping used to state resource claims. -/
structure WhisperState where
  g_ctx : Option Nat
  g_threads : Int
  next : Nat
  allocated : List Nat
  freed : List Nat
deriving Repr, DecidableEq

/-- Whisper handles that have been allocated and never freed. -/
def liveWhisper (st : WhisperState) : List Nat :=
  st.allocated.filter (fun h => ¬ h ∈ st.freed)

/-- Embedding of `whisper_bridge_init` (whisper_bridge.cpp:15-30).
The prior handle, if any, is freed first; then `g_threads` is set and the
model is loaded (GPU disabled).  On load failure `g_ctx` is the null result
of the failed load and `false` is returned. -/
def whisper_bridge_init (env : WhisperEnv) (model_path : String)
    (n_threads : Int) (st : WhisperState) : Bool × WhisperState :=
  let st1 :=
    match st.g_ctx with
    | some h => { st with g_ctx := none, freed := st.freed ++ [h] }
    | none => st
  let st2 := { st1 with g_threads := n_threads }
  if env.loadOk model_path then
    (true, { st2 with
               g_ctx := some st2.next
               allocated := st2.allocated ++ [st2.next]
               next := st2.next + 1 })
  else
    (false, st2)

/-- Concatenation of the segment texts, skipping null segments, as in the
`for` loop of `whisper_bridge_transcribe` (whisper_bridge.cpp:54-57). -/
def joinSegs : List (Option String) → String
  | [] => ""
  | some s :: rest => s ++ joinSegs rest
  | none :: rest => joinSegs rest

/-- Embedding of `if (!out.empty() && out[0] == ' ') out = out.substr(1)`
(whisper_bridge.cpp:58).  `!out.empty() && out[0] == ' '` compares the first
byte with the space byte, which for UTF-8 text is exactly "the first
character is a space", and `substr(1)` drops that one byte, i.e. that one
character. -/
def stripLeadingSpace (s : String) : String :=
  if s.data.head? = some ' ' then String.mk s.data.tail else s

/-- Embedding of `whisper_bridge_transcribe` (whisper_bridge.cpp:32-60).
With no handle loaded it returns the empty string; a nonzero status from
`whisper_full` also yields the empty string; otherwise the segment texts are
concatenated and a single leading space is stripped.  The globals are never
written. -/
def whisper_bridge_transcribe (env : WhisperEnv) (pcm : List Int)
    (lang : String) (st : WhisperState) : String × WhisperState :=
  match st.g_ctx with
  | none => ("", st)
  | some _ =>
    match env.full st.g_threads pcm lang with
    | none => ("", st)
    | some segs => (stripLeadingSpace (joinSegs segs), st)

/-- Embedding of `whisper_bridge_free` (whisper_bridge.cpp:62-64). -/
def whisper_bridge_free (st : WhisperState) : WhisperState :=
  match st.g_ctx with
  | some h => { st with g_ctx := none, freed := st.freed ++ [h] }
  | none => st

/-- Oracle for the llama.cpp engine calls made by `llama_bridge.cpp`.
`tokenize prompt bufSize` is the return value of `llama_tokenize` for the
prompt with a token buffer of `bufSize` entries (negative means the buffer
was too small and `-result` entries are required); `tokensOf prompt` are the
token ids written on success; `prefillOk toks` is whether `llama_decode` of
the whole prompt batch returns 0; `sample i` is the token produced by
`llama_sampler_sample` at loop step `i`; `isEog` is `llama_vocab_is_eog`;
`pieceOf tok` is the fragment rendered by `llama_token_to_piece` (empty when
the returned length is not positive); `stepOk i` is whether the one-token
`llama_decode` at step `i` returns 0; `ctxOk n_ctx` is whether
`llama_init_from_model` succeeds at that context size. -/
structure LlamaEnv where
  loadOk : String → Bool
  ctxOk : Int → Bool
  tokenize : String → Nat → Int
  tokensOf : String → List Int
  prefillOk : List Int → Bool
  sample : Nat → Int
  isEog : Int → Bool
  pieceOf : Int → String
  stepOk : Nat → Bool

/-- Globals of `llama_bridge.cpp` (`g_model`, `g_ctx`, `g_threads`) together
with allocation bookkeeping for both resource kinds. -/
structure LlamaState where
  g_model : Option Nat
  g_ctx : Option Nat
  g_threads : Int
  next : Nat
  allocatedModels : List Nat
  allocatedCtxs : List Nat
  freedModels : List Nat
  freedCtxs : List Nat
deriving Repr, DecidableEq

/-- Model handles that have been allocated and never freed. -/
def liveModels (st : LlamaState) : List Nat :=
  st.allocatedModels.filter (fun h => ¬ h ∈ st.freedModels)

/-- Context handles that have been allocated and never freed. -/
def liveCtxs (st : LlamaState) : List Nat :=
  st.allocatedCtxs.filter (fun h => ¬ h ∈ st.freedCtxs)

/-- Embedding of `llama_bridge_init` (llama_bridge.cpp:17-49).
Note the code frees no prior resource: `g_model` and `g_ctx` are assigned
the results of the fresh load / context creation directly, so a previously
held model or context is simply overwritten.  On load failure `g_model`
becomes the null result and `g_ctx` is not touched; when context creation
fails after a successful load, the fresh model is freed and both globals
end up null. -/
def llama_bridge_init (env : LlamaEnv) (model_path : String)
    (n_threads n_ctx : Int) (st : LlamaState) : Bool × LlamaState :=
  let st1 := { st with g_threads := n_threads }
  if env.loadOk model_path then
    let m := st1.next
    let st2 := { st1 with
                   g_model := some m
                   allocatedModels := st1.allocatedModels ++ [m]
                   next := st1.next + 1 }
    if env.ctxOk n_ctx then
      let c := st2.next
      (true, { st2 with
                 g_ctx := some c
                 allocatedCtxs := st2.allocatedCtxs ++ [c]
                 next := st2.next + 1 })
    else
      (false, { st2 with
                  g_ctx := none
                  g_model := none
                  freedModels := st2.freedModels ++ [m] })
  else
    (false, { st1 with g_model := none })

/-- Observable events of one `llama_bridge_translate` call: the context
memory clear, sampler-chain creation and release, and one `emit` per
`on_token` callback invocation. -/
inductive LlamaEvent where
  | memClear
  | samplerCreate
  | samplerFree
  | emit (fragment : String)
deriving Repr, DecidableEq

/-- Whether an event is a callback invocation. -/
def LlamaEvent.isEmit : LlamaEvent → Bool
  | .emit _ => true
  | _ => false

/-- Number of `on_token` callback invocations in a trace. -/
def emitCount (evs : List LlamaEvent) : Nat :=
  (evs.filter LlamaEvent.isEmit).length

/-- Embedding of the streaming decode loop of `llama_bridge_translate`
(llama_bridge.cpp:85-94): at each step a token is sampled; an end-of-
generation token stops the loop before any callback; otherwise the rendered
piece is emitted when non-empty and the one-token decode either advances the
loop or, on a nonzero status, stops it. -/
def llamaDecodeLoop (env : LlamaEnv) : Nat → Nat → List LlamaEvent
  | 0, _ => []
  | fuel + 1, i =>
    let tok := env.sample i
    if env.isEog tok then []
    else
      let piece := env.pieceOf tok
      let evs := if piece = "" then [] else [LlamaEvent.emit piece]
      if env.stepOk i then evs ++ llamaDecodeLoop env fuel (i + 1)
      else evs

/-- Tokenization with the single undersized-buffer retry of
`llama_bridge_translate` (llama_bridge.cpp:59-66): the first call uses a
buffer of `prompt.size() + 64` entries; a negative result `n` resizes the
buffer to `-n` entries and calls the tokenizer once more. -/
def tokenizeWithRetry (env : LlamaEnv) (prompt : String) : Int :=
  let n := env.tokenize prompt (prompt.utf8ByteSize + 64)
  if n < 0 then env.tokenize prompt (Int.toNat (-n)) else n

/-- Embedding of `llama_bridge_translate` (llama_bridge.cpp:52-97),
returning the event trace of the call and the resulting globals.  With no
context or no model it returns at once; otherwise the context memory is
cleared, the prompt is tokenized (with one retry), a nonpositive count or a
failed prefill decode aborts the call, and otherwise the sampler chain is
built, the decode loop runs for up to 512 steps, and the chain is freed.
The globals are never written. -/
def llama_bridge_translate (env : LlamaEnv) (prompt : String)
    (st : LlamaState) : List LlamaEvent × LlamaState :=
  match st.g_ctx, st.g_model with
  | some _, some _ =>
    let n := tokenizeWithRetry env prompt
    if n ≤ 0 then ([LlamaEvent.memClear], st)
    else
      let toks := (env.tokensOf prompt).take n.toNat
      if env.prefillOk toks then
        ([LlamaEvent.memClear, LlamaEvent.samplerCreate]
           ++ llamaDecodeLoop env 512 0 ++ [LlamaEvent.samplerFree], st)
      else ([LlamaEvent.memClear], st)
  | _, _ => ([], st)

/-- Embedding of `llama_bridge_free` (llama_bridge.cpp:99-102): the context
is freed first, then the model, each only when present. -/
def llama_bridge_free (st : LlamaState) : LlamaState :=
  let st1 :=
    match st.g_ctx with
    | some c => { st with g_ctx := none, freedCtxs := st.freedCtxs ++ [c] }
    | none => st
  match st1.g_model with
  | some m => { st1 with g_model := none, freedModels := st1.freedModels ++ [m] }
  | none => st1

/-! Concrete environments and states used to witness the theorems below. -/

/-- Whisper oracle where loading succeeds and transcription yields segments
whose concatenation starts with the conventional leading space. -/
def wEnvA : WhisperEnv where
  loadOk := fun _ => true
  full := fun _ _ _ => some [some " hello", none, some " world"]

/-- Whisper oracle where loading fails and transcription fails. -/
def wEnvFail : WhisperEnv where
  loadOk := fun _ => false
  full := fun _ _ _ => none

/-- Initial whisper state: no handle, default thread count. -/
def wSt0 : WhisperState := ⟨none, 4, 0, [], []⟩

/-- Whisper state with a single live handle 0. -/
def wStLive : WhisperState := ⟨some 0, 4, 1, [0], []⟩

/-- Llama oracle where every engine call succeeds and the first sampled
token is an end-of-generation token. -/
def lEnvA : LlamaEnv where
  loadOk := fun _ => true
  ctxOk := fun _ => true
  tokenize := fun _ _ => 3
  tokensOf := fun _ => [5, 6, 7]
  prefillOk := fun _ => true
  sample := fun _ => 9
  isEog := fun _ => true
  pieceOf := fun _ => "x"
  stepOk := fun _ => true

/-- Llama oracle where the model loads but context creation fails. -/
def lEnvCtxFail : LlamaEnv where
  loadOk := fun _ => true
  ctxOk := fun _ => false
  tokenize := fun _ _ => 3
  tokensOf := fun _ => [5, 6, 7]
  prefillOk := fun _ => true
  sample := fun _ => 9
  isEog := fun _ => true
  pieceOf := fun _ => "x"
  stepOk := fun _ => true

/-- Llama oracle whose tokenizer reports an undersized buffer (required
size 5) on the first call and still fails after the retry. -/
def lEnvTok : LlamaEnv where
  loadOk := fun _ => true
  ctxOk := fun _ => true
  tokenize := fun _ sz => if sz = 66 then -5 else 0
  tokensOf := fun _ => []
  prefillOk := fun _ => true
  sample := fun _ => 9
  isEog := fun _ => true
  pieceOf := fun _ => "x"
  stepOk := fun _ => true

/-- Initial llama state: no model, no context. -/
def lSt0 : LlamaState := ⟨none, none, 4, 0, [], [], [], []⟩

/-- Llama state with a live model 0 and a live context 1. -/
def lStLive : LlamaState := ⟨some 0, some 1, 4, 2, [0], [1], [], []⟩

/-! Helper lemmas. -/

/-- The translate call never writes the globals. -/
theorem llama_bridge_translate_state_eq (env : LlamaEnv) (prompt : String)
    (st : LlamaState) : (llama_bridge_translate env prompt st).2 = st := by
  unfold llama_bridge_translate
  rcases hc : st.g_ctx with _ | c
  · rfl
  · rcases hm : st.g_model with _ | m
    · rfl
    · simp only []
      split_ifs <;> rfl

/-- The transcribe call never writes the globals. -/
theorem whisper_bridge_transcribe_state_eq (env : WhisperEnv) (pcm : List Int)
    (lang : String) (st : WhisperState) :
    (whisper_bridge_transcribe env pcm lang st).2 = st := by
  unfold whisper_bridge_transcribe
  rcases hc : st.g_ctx with _ | c
  · rfl
  · rcases hf : env.full st.g_threads pcm lang with _ | segs <;> rfl

/-! Claim theorems. -/

/-- Claim C2: a transcribe call with no ASR handle returns the empty string,
and a translate call with no model or no context emits no callback event and
returns at once; in both cases the manager state is unchanged. -/
theorem c2_uninit_safe_noop (envW : WhisperEnv) (envL : LlamaEnv)
    (pcm : List Int) (lang prompt : String)
    (stW : WhisperState) (stL : LlamaState)
    (hW : stW.g_ctx = none) (hL : stL.g_ctx = none ∨ stL.g_model = none) :
    whisper_bridge_transcribe envW pcm lang stW = ("", stW) ∧
    llama_bridge_translate envL prompt stL = ([], stL) := by
  constructor
  · unfold whisper_bridge_transcribe
    rw [hW]
  · unfold llama_bridge_translate
    rcases hL with h | h
    · rw [h]
    · rw [h]
      rcases hc : stL.g_ctx with _ | c <;> rfl

theorem c2_uninit_safe_noop_witness :
    whisper_bridge_transcribe wEnvA [] "en" wSt0 = ("", wSt0) ∧
    llama_bridge_translate lEnvA "hola" lSt0 = ([], lSt0) :=
  c2_uninit_safe_noop wEnvA lEnvA [] "en" "hola" wSt0 lSt0 rfl (Or.inl rfl)

/-- Claim C3: when the model loads but context creation fails,
`llama_bridge_init` frees the freshly loaded model, returns failure, and
leaves no model handle installed by that call. -/
theorem c3_ctx_fail_releases_model (env : LlamaEnv) (path : String)
    (nt nc : Int) (st : LlamaState)
    (hload : env.loadOk path = true) (hctx : env.ctxOk nc = false) :
    (llama_bridge_init env path nt nc st).1 = false ∧
    ((llama_bridge_init env path nt nc st).2).g_model = none ∧
    ((llama_bridge_init env path nt nc st).2).g_ctx = none ∧
    st.next ∈ ((llama_bridge_init env path nt nc st).2).freedModels := by
  unfold llama_bridge_init
  rw [hload, hctx]
  simp

theorem c3_ctx_fail_releases_model_witness :
    (llama_bridge_init lEnvCtxFail "m.gguf" 4 2048 lSt0).1 = false ∧
    ((llama_bridge_init lEnvCtxFail "m.gguf" 4 2048 lSt0).2).g_model = none ∧
    ((llama_bridge_init lEnvCtxFail "m.gguf" 4 2048 lSt0).2).g_ctx = none ∧
    lSt0.next ∈ ((llama_bridge_init lEnvCtxFail "m.gguf" 4 2048 lSt0).2).freedModels :=
  c3_ctx_fail_releases_model lEnvCtxFail "m.gguf" 4 2048 lSt0 rfl rfl

/-- Claim C9: for both managers and from any state, free is idempotent: the
first free nulls the handle (and context) pointers and a second free leaves
the state unchanged. -/
theorem c9_free_idempotent (stW : WhisperState) (stL : LlamaState) :
    (whisper_bridge_free stW).g_ctx = none ∧
    whisper_bridge_free (whisper_bridge_free stW) = whisper_bridge_free stW ∧
    (llama_bridge_free stL).g_ctx = none ∧
    (llama_bridge_free stL).g_model = none ∧
    llama_bridge_free (llama_bridge_free stL) = llama_bridge_free stL := by
  obtain ⟨cw, tw, nw, aw, fw⟩ := stW
  obtain ⟨ml, cl, tl, nl, aml, acl, fml, fcl⟩ := stL
  rcases cw with _ | hw <;> rcases cl with _ | hc <;> rcases ml with _ | hm <;>
    simp [whisper_bridge_free, llama_bridge_free]

/-- Claim C10: a `whisper_bridge_init` call made while a handle is live
frees the prior handle even when the new load fails; after such a failed
re-init the handle is null, so every subsequent transcribe call returns the
empty string and leaves the state unchanged. -/
theorem c10_whisper_failed_reinit (env : WhisperEnv) (path : String)
    (nt : Int) (st : WhisperState) (h : Nat)
    (hh : st.g_ctx = some h) (hfail : env.loadOk path = false) :
    (whisper_bridge_init env path nt st).1 = false ∧
    ((whisper_bridge_init env path nt st).2).g_ctx = none ∧
    h ∈ ((whisper_bridge_init env path nt st).2).freed ∧
    ∀ pcm lang,
      whisper_bridge_transcribe env pcm lang ((whisper_bridge_init env path nt st).2)
        = ("", (whisper_bridge_init env path nt st).2) := by
  unfold whisper_bridge_init
  rw [hh, hfail]
  refine ⟨rfl, rfl, by simp, ?_⟩
  intro pcm lang
  unfold whisper_bridge_transcribe
  rfl

theorem c10_whisper_failed_reinit_witness :
    (whisper_bridge_init wEnvFail "m.bin" 4 wStLive).1 = false ∧
    ((whisper_bridge_init wEnvFail "m.bin" 4 wStLive).2).g_ctx = none ∧
    0 ∈ ((whisper_bridge_init wEnvFail "m.bin" 4 wStLive).2).freed ∧
    ∀ pcm lang,
      whisper_bridge_transcribe wEnvFail pcm lang
          ((whisper_bridge_init wEnvFail "m.bin" 4 wStLive).2)
        = ("", (whisper_bridge_init wEnvFail "m.bin" 4 wStLive).2) :=
  c10_whisper_failed_reinit wEnvFail "m.bin" 4 wStLive 0 rfl rfl

/-- Unfolding of one decode-loop step, with the early-exit branch written as
an append of the empty continuation. -/
theorem llamaDecodeLoop_succ (env : LlamaEnv) (fuel i : Nat) :
    llamaDecodeLoop env (fuel + 1) i =
      if env.isEog (env.sample i) then []
      else
        (if env.pieceOf (env.sample i) = "" then []
         else [LlamaEvent.emit (env.pieceOf (env.sample i))])
          ++ (if env.stepOk i then llamaDecodeLoop env fuel (i + 1) else []) := by
  simp only [llamaDecodeLoop]
  split_ifs <;> simp

/-- Callback counting distributes over trace concatenation. -/
theorem emitCount_append (a b : List LlamaEvent) :
    emitCount (a ++ b) = emitCount a + emitCount b := by
  simp [emitCount, List.filter_append]

/-- The decode loop emits at most one fragment per unit of fuel. -/
theorem emitCount_llamaDecodeLoop_le (env : LlamaEnv) :
    ∀ fuel i, emitCount (llamaDecodeLoop env fuel i) ≤ fuel := by
  intro fuel
  induction fuel with
  | zero => intro i; simp [llamaDecodeLoop, emitCount]
  | succ fuel ih =>
    intro i
    have hrec := ih (i + 1)
    rw [llamaDecodeLoop_succ]
    split_ifs
    · simp [emitCount]
    · simpa using Nat.le_succ_of_le hrec
    · simp [emitCount]
    · rw [emitCount_append]
      have h1 : emitCount [LlamaEvent.emit (env.pieceOf (env.sample i))] = 1 := rfl
      omega
    · rw [emitCount_append]
      have h1 : emitCount [LlamaEvent.emit (env.pieceOf (env.sample i))] = 1 := rfl
      have h2 : emitCount ([] : List LlamaEvent) = 0 := rfl
      omega

/-- Every event produced by the decode loop is a callback invocation: the
loop itself neither clears memory nor creates or frees sampler chains. -/
theorem llamaDecodeLoop_isEmit (env : LlamaEnv) :
    ∀ fuel i e, e ∈ llamaDecodeLoop env fuel i → e.isEmit = true := by
  intro fuel
  induction fuel with
  | zero => intro i e he; simp [llamaDecodeLoop] at he
  | succ fuel ih =>
    intro i e he
    rw [llamaDecodeLoop_succ] at he
    split_ifs at he
    · simp at he
    · rw [List.nil_append] at he
      exact ih (i + 1) e he
    · simp at he
    · rcases List.mem_append.mp he with h | h
      · rw [List.mem_singleton.mp h]
        rfl
      · exact ih (i + 1) e h
    · rw [List.append_nil] at he
      rw [List.mem_singleton.mp he]
      rfl

/-- The decode loop contains no occurrence of a non-emit event. -/
theorem count_llamaDecodeLoop_eq_zero (env : LlamaEnv) (fuel i : Nat)
    (e : LlamaEvent) (he : e.isEmit = false) :
    (llamaDecodeLoop env fuel i).count e = 0 := by
  rw [List.count_eq_zero]
  intro hmem
  have h2 := llamaDecodeLoop_isEmit env fuel i e hmem
  rw [h2] at he
  exact Bool.noConfusion he

/-- The trace of a translate call is empty (no handle), a bare memory clear
(tokenization or prefill failure), or a full clear/create/loop/free trace. -/
theorem llama_bridge_translate_trace_cases (env : LlamaEnv) (prompt : String)
    (st : LlamaState) :
    (llama_bridge_translate env prompt st).1 = [] ∨
    (llama_bridge_translate env prompt st).1 = [LlamaEvent.memClear] ∨
    (llama_bridge_translate env prompt st).1 =
      [LlamaEvent.memClear, LlamaEvent.samplerCreate]
        ++ llamaDecodeLoop env 512 0 ++ [LlamaEvent.samplerFree] := by
  unfold llama_bridge_translate
  rcases hc : st.g_ctx with _ | c
  · left; rfl
  · rcases hm : st.g_model with _ | m
    · left; rfl
    · simp only []
      split_ifs
      · right; left; rfl
      · right; right; rfl
      · right; left; rfl

/-- Claim C8: on a successful transcription pass, text whose first character
is a space is returned with exactly that one character removed, and text not
beginning with a space (including the empty string) is returned unchanged. -/
theorem c8_leading_space_strip (env : WhisperEnv) (pcm : List Int)
    (lang : String) (st : WhisperState) (h : Nat) (segs : List (Option String))
    (hh : st.g_ctx = some h)
    (hf : env.full st.g_threads pcm lang = some segs) :
    ((joinSegs segs).data.head? = some ' ' →
       (whisper_bridge_transcribe env pcm lang st).1
         = String.mk (joinSegs segs).data.tail) ∧
    ((joinSegs segs).data.head? ≠ some ' ' →
       (whisper_bridge_transcribe env pcm lang st).1 = joinSegs segs) := by
  have htr : (whisper_bridge_transcribe env pcm lang st).1
      = stripLeadingSpace (joinSegs segs) := by
    unfold whisper_bridge_transcribe
    rw [hh, hf]
  rw [htr]
  unfold stripLeadingSpace
  constructor
  · intro hsp
    rw [if_pos hsp]
  · intro hsp
    rw [if_neg hsp]

theorem c8_leading_space_strip_witness :
    (joinSegs [some " hello", none, some " world"]).data.head? = some ' ' ∧
    (whisper_bridge_transcribe wEnvA [] "en" wStLive).1
      = String.mk (joinSegs [some " hello", none, some " world"]).data.tail :=
  ⟨by decide,
   (c8_leading_space_strip wEnvA [] "en" wStLive 0
      [some " hello", none, some " world"] rfl rfl).1 (by decide)⟩

/-- Claim C4: a translate call invokes the callback at most 512 times, and
as soon as the sampled token is an end-of-generation token the decode loop
stops with no event at all from that step on. -/
theorem c4_loop_bound_eog_stop (env : LlamaEnv) (prompt : String)
    (st : LlamaState) (i fuel : Nat)
    (heog : env.isEog (env.sample i) = true) :
    emitCount (llama_bridge_translate env prompt st).1 ≤ 512 ∧
    llamaDecodeLoop env (fuel + 1) i = [] := by
  constructor
  · have hb := emitCount_llamaDecodeLoop_le env 512 0
    rcases llama_bridge_translate_trace_cases env prompt st with ht | ht | ht <;>
      rw [ht]
    · decide
    · decide
    · rw [emitCount_append, emitCount_append]
      have e1 : emitCount [LlamaEvent.memClear, LlamaEvent.samplerCreate] = 0 := rfl
      have e2 : emitCount [LlamaEvent.samplerFree] = 0 := rfl
      omega
  · rw [llamaDecodeLoop_succ, if_pos heog]

theorem c4_loop_bound_eog_stop_witness :
    emitCount (llama_bridge_translate lEnvA "hi" lStLive).1 ≤ 512 ∧
    llamaDecodeLoop lEnvA 1 0 = [] :=
  c4_loop_bound_eog_stop lEnvA "hi" lStLive 0 0 rfl

/-- Claim C5: whenever a translate call creates a sampler chain, the trace
contains exactly as many chain releases as creations and ends with the
release, on every exit path of the decode loop. -/
theorem c5_sampler_chain_freed (env : LlamaEnv) (prompt : String)
    (st : LlamaState)
    (h : LlamaEvent.samplerCreate ∈ (llama_bridge_translate env prompt st).1) :
    (llama_bridge_translate env prompt st).1.count LlamaEvent.samplerCreate
      = (llama_bridge_translate env prompt st).1.count LlamaEvent.samplerFree ∧
    (llama_bridge_translate env prompt st).1.getLast?
      = some LlamaEvent.samplerFree := by
  rcases llama_bridge_translate_trace_cases env prompt st with ht | ht | ht
  · rw [ht] at h; simp at h
  · rw [ht] at h; simp at h
  · rw [ht] at h ⊢
    constructor
    · rw [List.count_append, List.count_append, List.count_append,
          List.count_append,
          count_llamaDecodeLoop_eq_zero env 512 0 LlamaEvent.samplerCreate rfl,
          count_llamaDecodeLoop_eq_zero env 512 0 LlamaEvent.samplerFree rfl]
      decide
    · rw [List.append_assoc]
      rw [show [LlamaEvent.memClear, LlamaEvent.samplerCreate]
            ++ (llamaDecodeLoop env 512 0 ++ [LlamaEvent.samplerFree])
            = ([LlamaEvent.memClear, LlamaEvent.samplerCreate]
                ++ llamaDecodeLoop env 512 0) ++ [LlamaEvent.samplerFree] from
            (List.append_assoc _ _ _).symm]
      exact List.getLast?_concat _

theorem c5_sampler_chain_freed_witness :
    (llama_bridge_translate lEnvA "hi" lStLive).1.count LlamaEvent.samplerCreate
      = (llama_bridge_translate lEnvA "hi" lStLive).1.count LlamaEvent.samplerFree ∧
    (llama_bridge_translate lEnvA "hi" lStLive).1.getLast?
      = some LlamaEvent.samplerFree :=
  c5_sampler_chain_freed lEnvA "hi" lStLive (by decide)

/-- Claim C6: with a live handle, a negative first tokenizer result makes
the call retry exactly once with a buffer of the reported required size; the
call's token count is that single retry's result, and if it is still zero or
negative the call returns with only the memory clear performed, zero
callback invocations, and the state unchanged. -/
theorem c6_tokenize_single_retry (env : LlamaEnv) (prompt : String)
    (st : LlamaState) (m c : Nat)
    (hm : st.g_model = some m) (hc : st.g_ctx = some c)
    (hneg : env.tokenize prompt (prompt.utf8ByteSize + 64) < 0) :
    tokenizeWithRetry env prompt
      = env.tokenize prompt
          (Int.toNat (-(env.tokenize prompt (prompt.utf8ByteSize + 64)))) ∧
    (env.tokenize prompt
        (Int.toNat (-(env.tokenize prompt (prompt.utf8ByteSize + 64)))) ≤ 0 →
      llama_bridge_translate env prompt st = ([LlamaEvent.memClear], st)) := by
  have hretry : tokenizeWithRetry env prompt
      = env.tokenize prompt
          (Int.toNat (-(env.tokenize prompt (prompt.utf8ByteSize + 64)))) := by
    unfold tokenizeWithRetry
    rw [if_pos hneg]
  refine ⟨hretry, ?_⟩
  intro hle
  have hn : tokenizeWithRetry env prompt ≤ 0 := by
    rw [hretry]; exact hle
  unfold llama_bridge_translate
  rw [hc, hm]
  simp only []
  rw [if_pos hn]

theorem c6_tokenize_single_retry_witness :
    tokenizeWithRetry lEnvTok "ab"
      = lEnvTok.tokenize "ab"
          (Int.toNat (-(lEnvTok.tokenize "ab" ("ab".utf8ByteSize + 64)))) ∧
    llama_bridge_translate lEnvTok "ab" lStLive
      = ([LlamaEvent.memClear], lStLive) :=
  ⟨(c6_tokenize_single_retry lEnvTok "ab" lStLive 0 1 rfl rfl (by decide)).1,
   (c6_tokenize_single_retry lEnvTok "ab" lStLive 0 1 rfl rfl (by decide)).2
     (by decide)⟩

/-- Claim C7: a transcribe call that fails in the decode pass returns the
empty string with the handle still loaded, and a translate call never writes
the globals, so the model handle and inference context survive tokenization,
prefill, and step-decode failures. -/
theorem c7_failures_preserve_handles (envW : WhisperEnv) (envL : LlamaEnv)
    (pcm : List Int) (lang prompt : String)
    (stW : WhisperState) (stL : LlamaState) (h m c : Nat)
    (hW : stW.g_ctx = some h)
    (hfull : envW.full stW.g_threads pcm lang = none)
    (hm : stL.g_model = some m) (hc : stL.g_ctx = some c) :
    whisper_bridge_transcribe envW pcm lang stW = ("", stW) ∧
    ((whisper_bridge_transcribe envW pcm lang stW).2).g_ctx = some h ∧
    (llama_bridge_translate envL prompt stL).2 = stL ∧
    ((llama_bridge_translate envL prompt stL).2).g_model = some m ∧
    ((llama_bridge_translate envL prompt stL).2).g_ctx = some c := by
  have htr : whisper_bridge_transcribe envW pcm lang stW = ("", stW) := by
    unfold whisper_bridge_transcribe
    rw [hW, hfull]
  have hst := llama_bridge_translate_state_eq envL prompt stL
  refine ⟨htr, ?_, hst, ?_, ?_⟩
  · rw [htr]; exact hW
  · rw [hst]; exact hm
  · rw [hst]; exact hc

theorem c7_failures_preserve_handles_witness :
    whisper_bridge_transcribe wEnvFail [] "en" wStLive = ("", wStLive) ∧
    ((whisper_bridge_transcribe wEnvFail [] "en" wStLive).2).g_ctx = some 0 ∧
    (llama_bridge_translate lEnvA "hi" lStLive).2 = lStLive ∧
    ((llama_bridge_translate lEnvA "hi" lStLive).2).g_model = some 0 ∧
    ((llama_bridge_translate lEnvA "hi" lStLive).2).g_ctx = some 1 :=
  c7_failures_preserve_handles wEnvFail lEnvA [] "en" "hi" wStLive lStLive
    0 0 1 rfl rfl rfl rfl

/-- Claim C1, evaluated on the code: `llama_bridge_init` releases no prior
resource.  From the empty state, two successful init calls leave the first
model (id 0) and first context (id 1) allocated and never freed, so after
the second call two model handles and two contexts are live at once. -/
theorem c1_llama_reinit_leaks :
    ((llama_bridge_init lEnvA "m.gguf" 4 2048 lSt0).2).g_model = some 0 ∧
    ((llama_bridge_init lEnvA "m.gguf" 4 2048 lSt0).2).g_ctx = some 1 ∧
    (llama_bridge_init lEnvA "m.gguf" 4 2048
        (llama_bridge_init lEnvA "m.gguf" 4 2048 lSt0).2).1 = true ∧
    ((llama_bridge_init lEnvA "m.gguf" 4 2048
        (llama_bridge_init lEnvA "m.gguf" 4 2048 lSt0).2).2).g_model = some 2 ∧
    ¬ 0 ∈ ((llama_bridge_init lEnvA "m.gguf" 4 2048
        (llama_bridge_init lEnvA "m.gguf" 4 2048 lSt0).2).2).freedModels ∧
    ¬ 1 ∈ ((llama_bridge_init lEnvA "m.gguf" 4 2048
        (llama_bridge_init lEnvA "m.gguf" 4 2048 lSt0).2).2).freedCtxs ∧
    liveModels ((llama_bridge_init lEnvA "m.gguf" 4 2048
        (llama_bridge_init lEnvA "m.gguf" 4 2048 lSt0).2).2) = [0, 2] ∧
    liveCtxs ((llama_bridge_init lEnvA "m.gguf" 4 2048
        (llama_bridge_init lEnvA "m.gguf" 4 2048 lSt0).2).2) = [1, 3] := by
  decide

/-- In contrast, the ASR manager does implement the release-before-reinit
discipline: a successful `whisper_bridge_init` from a state with a live
handle frees that handle and installs a fresh one, keeping exactly one
handle live. -/
theorem whisper_reinit_releases_prior (env : WhisperEnv) (path : String)
    (nt : Int) (st : WhisperState) (h : Nat)
    (hh : st.g_ctx = some h) (hok : env.loadOk path = true) :
    (whisper_bridge_init env path nt st).1 = true ∧
    h ∈ ((whisper_bridge_init env path nt st).2).freed ∧
    ((whisper_bridge_init env path nt st).2).g_ctx = some st.next := by
  unfold whisper_bridge_init
  rw [hh, hok]
  simp

theorem whisper_reinit_releases_prior_witness :
    (whisper_bridge_init wEnvA "m.bin" 4 wStLive).1 = true ∧
    0 ∈ ((whisper_bridge_init wEnvA "m.bin" 4 wStLive).2).freed ∧
    ((whisper_bridge_init wEnvA "m.bin" 4 wStLive).2).g_ctx = some wStLive.next :=
  whisper_reinit_releases_prior wEnvA "m.bin" 4 wStLive 0 rfl rfl

end SpeechTranslator
